import Mathlib

set_option maxRecDepth 10000

/-!
Verification of the token-exchange core of the drone-azure-oidc plugin.

The definitions below are a shallow embedding of `plugin/plugin.go` and
`plugin/util.go`.  Go strings are modelled as Lean `String`s whose `data`
field plays the role of Go's byte sequence (all strings of interest are
ASCII, so byte indexing and char indexing coincide); `fmt.Errorf` chains
are modelled as the literal message strings they produce; `encoding/json`
unmarshalling into the two response structs is modelled by a small JSON
parser plus field-wise decoding with Go's semantics for these struct
types (unknown fields ignored, absent fields left at their zero value,
`null` accepted as a no-op, a present field of the wrong type is an
error, the last duplicate key wins).  The HTTP layer is an oracle: the
exchanger receives a `send` function mapping the request it built to a
network outcome (transport error, body-read error, or a status/body
response), exactly the observable interface of `http.Client.Do` plus
`io.ReadAll` in the source.
-/

/-- Struct `AzureTokenResponse` from `plugin/util.go` (a successful token reply). -/
structure AzureTokenResponse where
  token_type : String
  expires_in : Int
  access_token : String
  refresh_token : String
deriving DecidableEq

/-- Struct `AzureErrorResponse` from `plugin/util.go` (a structured provider error). -/
structure AzureErrorResponse where
  error : String
  error_description : String
  error_codes : List Int
  timestamp : String
  trace_id : String
  correlation_id : String
deriving DecidableEq

/-- JSON values, as produced by `encoding/json` for the bodies this plugin
handles (numbers restricted to integers, which covers every field of the
two response structs). -/
inductive Json where
  | null : Json
  | bool (b : Bool) : Json
  | num (n : Int) : Json
  | str (s : String) : Json
  | arr (elems : List Json) : Json
  | obj (members : List (String × Json)) : Json

/-- JSON insignificant whitespace. -/
def isWsChar (c : Char) : Bool :=
  c = ' ' || c = '\t' || c = '\n' || c = '\r'

/-- Drop leading JSON whitespace. -/
def skipWs : List Char → List Char
  | [] => []
  | c :: rest => if isWsChar c then skipWs rest else c :: rest

/-- Interpretation of a JSON escape character (enough for the bodies at hand). -/
def unescapeChar (c : Char) : Char :=
  if c = 'n' then '\n' else if c = 't' then '\t' else if c = 'r' then '\r' else c

/-- Scan the body of a JSON string after its opening quote; returns the
string's characters and the input after the closing quote. -/
def parseStringBody : List Char → Option (List Char × List Char)
  | [] => none
  | c :: rest =>
    if c = '"' then some ([], rest)
    else if c = '\\' then
      match rest with
      | [] => none
      | e :: rest2 =>
        match parseStringBody rest2 with
        | none => none
        | some (s, r) => some (unescapeChar e :: s, r)
    else
      match parseStringBody rest with
      | none => none
      | some (s, r) => some (c :: s, r)

/-- Accumulate a run of decimal digits. -/
def parseDigits : List Char → Nat → Nat × List Char
  | [], acc => (acc, [])
  | c :: rest, acc =>
    if c.isDigit then parseDigits rest (acc * 10 + (c.toNat - '0'.toNat))
    else (acc, c :: rest)

/-- Parse an integer JSON number (sign and digits). -/
def parseNumber (input : List Char) : Option (Int × List Char) :=
  match input with
  | [] => none
  | '-' :: rest =>
    match rest with
    | [] => none
    | c :: _ =>
      if c.isDigit then
        some (-(Int.ofNat (parseDigits rest 0).1), (parseDigits rest 0).2)
      else none
  | c :: _ =>
    if c.isDigit then
      some (Int.ofNat (parseDigits input 0).1, (parseDigits input 0).2)
    else none

/-- Consume an expected literal character sequence. -/
def dropLit : List Char → List Char → Option (List Char)
  | [], input => some input
  | _ :: _, [] => none
  | e :: es, c :: rest => if c = e then dropLit es rest else none

mutual

/-- Parse one JSON value.  The fuel argument bounds the recursion through
nested values and object/array member lists; callers supply more fuel than
the body length, which always suffices because each recursive call is made
only after at least one input character has been consumed. -/
def parseValue : Nat → List Char → Option (Json × List Char)
  | 0, _ => none
  | fuel + 1, input =>
    match skipWs input with
    | [] => none
    | c :: rest =>
      if c = '"' then
        match parseStringBody rest with
        | none => none
        | some (s, r) => some (.str (String.mk s), r)
      else if c = '\x7b' then
        match skipWs rest with
        | [] => none
        | c2 :: r2 =>
          if c2 = '\x7d' then some (.obj [], r2)
          else
            match parseMembers fuel (c2 :: r2) with
            | none => none
            | some (ms, r3) => some (.obj ms, r3)
      else if c = '[' then
        match skipWs rest with
        | [] => none
        | c2 :: r2 =>
          if c2 = ']' then some (.arr [], r2)
          else
            match parseElems fuel (c2 :: r2) with
            | none => none
            | some (xs, r3) => some (.arr xs, r3)
      else if c = 't' then
        match dropLit ['r', 'u', 'e'] rest with
        | none => none
        | some r => some (.bool true, r)
      else if c = 'f' then
        match dropLit ['a', 'l', 's', 'e'] rest with
        | none => none
        | some r => some (.bool false, r)
      else if c = 'n' then
        match dropLit ['u', 'l', 'l'] rest with
        | none => none
        | some r => some (.null, r)
      else
        match parseNumber (c :: rest) with
        | none => none
        | some (i, r) => some (.num i, r)

/-- Parse the members of a JSON object (at least one), consuming the
closing brace. -/
def parseMembers : Nat → List Char → Option (List (String × Json) × List Char)
  | 0, _ => none
  | fuel + 1, input =>
    match skipWs input with
    | [] => none
    | c :: rest =>
      if c = '"' then
        match parseStringBody rest with
        | none => none
        | some (k, r1) =>
          match skipWs r1 with
          | [] => none
          | c2 :: r2 =>
            if c2 = ':' then
              match parseValue fuel r2 with
              | none => none
              | some (v, r3) =>
                match skipWs r3 with
                | [] => none
                | c3 :: r4 =>
                  if c3 = ',' then
                    match parseMembers fuel r4 with
                    | none => none
                    | some (ms, r5) => some ((String.mk k, v) :: ms, r5)
                  else if c3 = '\x7d' then some ([(String.mk k, v)], r4)
                  else none
            else none
      else none

/-- Parse the elements of a JSON array (at least one), consuming the
closing bracket. -/
def parseElems : Nat → List Char → Option (List Json × List Char)
  | 0, _ => none
  | fuel + 1, input =>
    match parseValue fuel input with
    | none => none
    | some (v, r1) =>
      match skipWs r1 with
      | [] => none
      | c :: r2 =>
        if c = ',' then
          match parseElems fuel r2 with
          | none => none
          | some (xs, r3) => some (v :: xs, r3)
        else if c = ']' then some ([v], r2)
        else none

end

/-- Parse a whole JSON document (one top-level value, then only
whitespace), as `json.Unmarshal` requires. -/
def parseJsonDoc (s : String) : Except String Json :=
  match parseValue (s.data.length + 1) s.data with
  | none => .error "invalid JSON input"
  | some (v, rest) =>
    match skipWs rest with
    | [] => .ok v
    | _ => .error "invalid character after top-level value"

/-- Zero value of `AzureTokenResponse`, as Go leaves absent fields. -/
def zeroTokenResponse : AzureTokenResponse :=
  { token_type := "", expires_in := 0, access_token := "", refresh_token := "" }

/-- Zero value of `AzureErrorResponse`. -/
def zeroErrorResponse : AzureErrorResponse :=
  { error := "", error_description := "", error_codes := [],
    timestamp := "", trace_id := "", correlation_id := "" }

/-- Assign one decoded JSON object member to an `AzureTokenResponse`,
with `encoding/json` semantics: known keys must carry a value of the
field's type (or `null`, a no-op), unknown keys are ignored. -/
def setTokenField (acc : AzureTokenResponse) : String × Json → Except String AzureTokenResponse
  | (k, v) =>
    if k = "token_type" then
      match v with
      | .str s => .ok { acc with token_type := s }
      | .null => .ok acc
      | _ => .error "cannot unmarshal value into field token_type of type string"
    else if k = "expires_in" then
      match v with
      | .num n => .ok { acc with expires_in := n }
      | .null => .ok acc
      | _ => .error "cannot unmarshal value into field expires_in of type int"
    else if k = "access_token" then
      match v with
      | .str s => .ok { acc with access_token := s }
      | .null => .ok acc
      | _ => .error "cannot unmarshal value into field access_token of type string"
    else if k = "refresh_token" then
      match v with
      | .str s => .ok { acc with refresh_token := s }
      | .null => .ok acc
      | _ => .error "cannot unmarshal value into field refresh_token of type string"
    else .ok acc

/-- Decode a JSON array of integers (for `error_codes`). -/
def intListFromJson : List Json → Except String (List Int)
  | [] => .ok []
  | .num n :: rest =>
    match intListFromJson rest with
    | .ok xs => .ok (n :: xs)
    | .error e => .error e
  | _ :: _ => .error "cannot unmarshal value into element of type int"

/-- Assign one decoded JSON object member to an `AzureErrorResponse`. -/
def setErrorField (acc : AzureErrorResponse) : String × Json → Except String AzureErrorResponse
  | (k, v) =>
    if k = "error" then
      match v with
      | .str s => .ok { acc with error := s }
      | .null => .ok acc
      | _ => .error "cannot unmarshal value into field error of type string"
    else if k = "error_description" then
      match v with
      | .str s => .ok { acc with error_description := s }
      | .null => .ok acc
      | _ => .error "cannot unmarshal value into field error_description of type string"
    else if k = "error_codes" then
      match v with
      | .arr xs =>
        match intListFromJson xs with
        | .ok ns => .ok { acc with error_codes := ns }
        | .error e => .error e
      | .null => .ok acc
      | _ => .error "cannot unmarshal value into field error_codes of type []int"
    else if k = "timestamp" then
      match v with
      | .str s => .ok { acc with timestamp := s }
      | .null => .ok acc
      | _ => .error "cannot unmarshal value into field timestamp of type string"
    else if k = "trace_id" then
      match v with
      | .str s => .ok { acc with trace_id := s }
      | .null => .ok acc
      | _ => .error "cannot unmarshal value into field trace_id of type string"
    else if k = "correlation_id" then
      match v with
      | .str s => .ok { acc with correlation_id := s }
      | .null => .ok acc
      | _ => .error "cannot unmarshal value into field correlation_id of type string"
    else .ok acc

/-- Model of `json.Unmarshal(body, &tokenResp)` for `AzureTokenResponse`: the top
level must be an object (or `null`, a no-op on the zero value). -/
def unmarshalAzureToken (s : String) : Except String AzureTokenResponse :=
  match parseJsonDoc s with
  | .error e => .error e
  | .ok (.obj kvs) => kvs.foldlM setTokenField zeroTokenResponse
  | .ok .null => .ok zeroTokenResponse
  | .ok _ => .error "cannot unmarshal value into Go value of type plugin.AzureTokenResponse"

/-- Model of `json.Unmarshal(body, &azureErr)` for `AzureErrorResponse`. -/
def unmarshalAzureError (s : String) : Except String AzureErrorResponse :=
  match parseJsonDoc s with
  | .error e => .error e
  | .ok (.obj kvs) => kvs.foldlM setErrorField zeroErrorResponse
  | .ok .null => .ok zeroErrorResponse
  | .ok _ => .error "cannot unmarshal value into Go value of type plugin.AzureErrorResponse"

/-- The GUID shape test from both `validateGUID` functions:
`len(value) == 36 && value[8] == '-' && value[13] == '-' && value[18] == '-' && value[23] == '-'`. -/
def isGuidShape (value : String) : Bool :=
  value.data.length == 36 && value.data.getD 8 ' ' == '-' && value.data.getD 13 ' ' == '-'
    && value.data.getD 18 ' ' == '-' && value.data.getD 23 ' ' == '-'

/-- Function `validateGUID` from `plugin/util.go`: rejects the empty string with a
dedicated message, then applies the shape test. -/
def utilValidateGUID (value fieldName : String) : Except String Unit :=
  if value = "" then .error (fieldName ++ " cannot be empty")
  else if isGuidShape value then .ok ()
  else .error (fieldName ++ " must be a valid GUID format (xxxxxxxx-xxxx-xxxx-xxxx-xxxxxxxxxxxx)")

/-- Function `validateGUID` from `plugin/plugin.go`: the shape test alone. -/
def pluginValidateGUID (value fieldName : String) : Except String Unit :=
  if isGuidShape value then .ok ()
  else .error (fieldName ++ " must be a valid GUID format (xxxxxxxx-xxxx-xxxx-xxxx-xxxxxxxxxxxx)")

/-- Function `sanitizeErrorDescription` from `plugin/util.go`: descriptions longer
than 200 bytes are cut to 200 bytes plus an ellipsis marker. -/
def sanitizeErrorDescription (desc : String) : String :=
  if desc.data.length > 200 then String.mk (desc.data.take 200) ++ "..." else desc

/-- The token endpoint built by `ExchangeOIDCForAzureToken`
(`fmt.Sprintf("https://login.microsoftonline.com/%s/oauth2/v2.0/token", tenantID)`). -/
def tokenEndpoint (tenantID : String) : String :=
  "https://login.microsoftonline.com/" ++ tenantID ++ "/oauth2/v2.0/token"

/-- The form fields set on the token request (`url.Values` in the source). -/
def buildForm (oidcToken clientID scope : String) : List (String × String) :=
  [("client_id", clientID),
   ("scope", scope),
   ("client_assertion_type", "urn:ietf:params:oauth:client-assertion-type:jwt-bearer"),
   ("client_assertion", oidcToken),
   ("grant_type", "client_credentials")]

/-- The outgoing HTTP POST request, as observed by the provider. -/
structure TokenRequest where
  url : String
  form : List (String × String)

/-- What the network run of one request yields: a transport failure from
`client.Do`, a body-read failure from `io.ReadAll`, or a full response
(numeric status code, status line as in `resp.Status`, and body). -/
inductive HTTPOutcome where
  | transportFailure (cause : String) : HTTPOutcome
  | bodyReadFailure (cause : String) : HTTPOutcome
  | response (statusCode : Nat) (status : String) (body : String) : HTTPOutcome

/-- Response interpretation of `ExchangeOIDCForAzureToken` (lines 95-116
of `plugin/util.go`): non-200 statuses try the structured provider error
and fall back to the bare status line; 200 decodes the token response. -/
def handleResponse (statusCode : Nat) (status : String) (body : String) :
    Except String AzureTokenResponse :=
  if statusCode ≠ 200 then
    match unmarshalAzureError body with
    | .ok azureErr =>
      if azureErr.error ≠ "" then
        .error ("token exchange failed: " ++ azureErr.error ++ " - "
          ++ sanitizeErrorDescription azureErr.error_description
          ++ " (trace_id: " ++ azureErr.trace_id ++ ")")
      else .error ("token exchange failed: " ++ status)
    | .error _ => .error ("token exchange failed: " ++ status)
  else
    match unmarshalAzureToken body with
    | .ok tokenResp => .ok tokenResp
    | .error e => .error ("failed to decode response: " ++ e)

/-- Function `ExchangeOIDCForAzureToken` from `plugin/util.go`, with the network
call abstracted as the `send` oracle.  The two GUID validations run before
the request is built or sent; only when both pass is `send` consulted. -/
def exchangeOIDCForAzureToken (send : TokenRequest → HTTPOutcome)
    (oidcToken tenantID clientID scope : String) : Except String AzureTokenResponse :=
  match utilValidateGUID tenantID "tenant_id" with
  | .error e => .error e
  | .ok _ =>
    match utilValidateGUID clientID "client_id" with
    | .error e => .error e
    | .ok _ =>
      match send { url := tokenEndpoint tenantID,
                   form := buildForm oidcToken clientID scope } with
      | .transportFailure cause => .error ("failed to exchange token: " ++ cause)
      | .bodyReadFailure cause => .error ("failed to read response body: " ++ cause)
      | .response statusCode status body => handleResponse statusCode status body

/-- Struct `Args` from `plugin/plugin.go` (the fields the core consumes; the log
level is irrelevant to it). -/
structure Args where
  oidcToken : String
  tenantID : String
  clientID : String
  scope : String
  authorityHost : String

/-- Function `VerifyEnv` from `plugin/plugin.go`. -/
def VerifyEnv (args : Args) : Except String Unit :=
  if args.oidcToken = "" then .error "oidc-token is not provided"
  else if args.tenantID = "" then .error "tenant-id is not provided"
  else if args.clientID = "" then .error "client-id is not provided"
  else
    match pluginValidateGUID args.tenantID "tenant-id" with
    | .error e => .error e
    | .ok _ => pluginValidateGUID args.clientID "client-id"

/-- The line `WriteEnvToFile` appends for a key/value pair
(`fmt.Fprintf(outputFile, "%s=%s\n", key, value)`). -/
def writeEnvLine (key value : String) : String :=
  key ++ "=" ++ value ++ "\n"

/-- Function `Exec` from `plugin/plugin.go`.  The result sink is modelled as the
list of lines appended to the output file during the invocation;
`fileOpenErr` is the oracle for `os.OpenFile` failing (in which case
nothing is appended).  Note that `args.authorityHost` is carried but never
consumed: the exchanger in `plugin/util.go` takes no authority host. -/
def Exec (send : TokenRequest → HTTPOutcome) (fileOpenErr : Option String)
    (args : Args) : Except String Unit × List String :=
  match VerifyEnv args with
  | .error e => (.error e, [])
  | .ok _ =>
    match exchangeOIDCForAzureToken send args.oidcToken args.tenantID args.clientID args.scope with
    | .error e => (.error ("failed to exchange OIDC token: " ++ e), [])
    | .ok tokenResp =>
      match fileOpenErr with
      | some cause => (.error ("failed to open output file: " ++ cause), [])
      | none => (.ok (), [writeEnvLine "AZURE_ACCESS_TOKEN" tokenResp.access_token])

/-- The description-body inputs used to analyse the error-body read:
the fixed JSON head up to the opening quote of `error_description`. -/
def errHeadChars : List Char :=
  ['\x7b', '"', 'e', 'r', 'r', 'o', 'r', '"', ':', '"', 'i', 'n', 'v', 'a', 'l', 'i', 'd',
   '_', 'c', 'l', 'i', 'e', 'n', 't', '"', ',', '"', 'e', 'r', 'r', 'o', 'r', '_', 'd',
   'e', 's', 'c', 'r', 'i', 'p', 't', 'i', 'o', 'n', '"', ':', '"']

/-- A well-formed provider-error body whose description is `n` copies of `a`. -/
def errBodyFull (n : Nat) : String :=
  String.mk (errHeadChars ++ (List.replicate n 'a' ++ ['"', '\x7d']))

/-- The same body cut off inside the description (unterminated JSON). -/
def errBodyCut (n : Nat) : String :=
  String.mk (errHeadChars ++ List.replicate n 'a')

/-- Substring test on the character sequences of two strings. -/
def isPrefixOfChars : List Char → List Char → Bool
  | [], _ => true
  | _ :: _, [] => false
  | a :: as, b :: bs => a == b && isPrefixOfChars as bs

/-- Auxiliary scan for `containsSub`. -/
def containsSubAux (needle : List Char) : List Char → Bool
  | [] => isPrefixOfChars needle []
  | c :: rest => isPrefixOfChars needle (c :: rest) || containsSubAux needle rest

/-- Whether `needle` occurs as a contiguous substring of `hay`. -/
def containsSub (needle hay : String) : Bool :=
  containsSubAux needle.data hay.data

theorem string_data_append (a b : String) : (a ++ b).data = a.data ++ b.data := by
  cases a; cases b; rfl

theorem errHeadChars_length : errHeadChars.length = 47 := rfl

theorem isGuidShape_ne_empty {v : String} (h : isGuidShape v = true) : v ≠ "" := by
  intro he
  subst he
  exact absurd h (by decide)

theorem utilValidateGUID_ok_iff (v f : String) :
    utilValidateGUID v f = .ok () ↔ isGuidShape v = true := by
  constructor
  · intro h
    by_cases hv : v = ""
    · subst hv; simp [utilValidateGUID] at h
    · by_cases hs : isGuidShape v
      · exact hs
      · simp [utilValidateGUID, hv, hs] at h
  · intro hs
    have hv : v ≠ "" := isGuidShape_ne_empty hs
    simp [utilValidateGUID, hv, hs]

theorem pluginValidateGUID_ok_iff (v f : String) :
    pluginValidateGUID v f = .ok () ↔ isGuidShape v = true := by
  constructor
  · intro h
    by_cases hs : isGuidShape v
    · exact hs
    · simp [pluginValidateGUID, hs] at h
  · intro hs; simp [pluginValidateGUID, hs]

/-- C2: the claim's second half holds — a non-empty scope is sent verbatim —
but its first half fails on the code: an empty scope is also sent verbatim
(the form field `scope` is the empty string), and the fixed default
`https://management.azure.com/.default` is never substituted.  The repo's
own test (`TestExchangeOIDCForAzureToken_Success`) and README document the
default, so the code contradicts them. -/
theorem scope_sent_verbatim_never_defaulted (oidcToken clientID : String) :
    (buildForm oidcToken clientID "").lookup "scope" = some "" ∧
    (buildForm oidcToken clientID "").lookup "scope" ≠
      some "https://management.azure.com/.default" ∧
    ∀ scope, (buildForm oidcToken clientID scope).lookup "scope" = some scope := by
  refine ⟨rfl, ?_, fun scope => rfl⟩
  intro h
  rw [show (buildForm oidcToken clientID "").lookup "scope" = some "" from rfl] at h
  exact absurd (Option.some.inj h) (by decide)

/-- C3: the authority host is not configurable in the code — the exchanger
takes no authority-host argument, `Exec`'s result is independent of
`args.authorityHost`, and the endpoint is always composed on the fixed
host `https://login.microsoftonline.com`. -/
theorem authority_host_ignored_endpoint_hardcoded (tenantID : String)
    (send : TokenRequest → HTTPOutcome) (fileOpenErr : Option String)
    (args : Args) (h h' : String) :
    tokenEndpoint tenantID =
      "https://login.microsoftonline.com/" ++ tenantID ++ "/oauth2/v2.0/token" ∧
    Exec send fileOpenErr { args with authorityHost := h } =
      Exec send fileOpenErr { args with authorityHost := h' } :=
  ⟨rfl, rfl⟩

/-- C8: the exchanger's outcome — in particular every error message it can
produce — is a function of the provider's response alone and does not
depend on the submitted OIDC token: two runs that differ only in the
oidc_token value but receive the same network outcome return identical
results. -/
theorem exchange_result_independent_of_oidc_token (out : HTTPOutcome)
    (tok1 tok2 tenantID clientID scope : String) :
    exchangeOIDCForAzureToken (fun _ => out) tok1 tenantID clientID scope =
      exchangeOIDCForAzureToken (fun _ => out) tok2 tenantID clientID scope := rfl

/-- C4: `VerifyEnv` succeeds exactly when oidc_token, tenant_id and
client_id are non-empty and both identifiers pass the 36-character
hyphen-position shape check; an empty required field yields the
field-specific missing-field message and the exchanger is never invoked
(the result of `Exec` does not depend on the network or file oracles);
a shape failure yields the malformed-identifier message. -/
theorem verifyEnv_gate (args : Args) :
    (VerifyEnv args = .ok () ↔
      (args.oidcToken ≠ "" ∧ args.tenantID ≠ "" ∧ args.clientID ≠ "" ∧
        isGuidShape args.tenantID = true ∧ isGuidShape args.clientID = true)) ∧
    ((args.oidcToken = "" ∨ args.tenantID = "" ∨ args.clientID = "") →
      (∃ m, VerifyEnv args = .error m ∧
        (m = "oidc-token is not provided" ∨ m = "tenant-id is not provided" ∨
          m = "client-id is not provided")) ∧
      (∀ send send' fe fe', Exec send fe args = Exec send' fe' args ∧
        (Exec send fe args).2 = [])) ∧
    ((args.oidcToken ≠ "" ∧ args.tenantID ≠ "" ∧ args.clientID ≠ "" ∧
        (isGuidShape args.tenantID = false ∨ isGuidShape args.clientID = false)) →
      ∃ f, VerifyEnv args = .error
        (f ++ " must be a valid GUID format (xxxxxxxx-xxxx-xxxx-xxxx-xxxxxxxxxxxx)")) := by
  refine ⟨?_, ?_, ?_⟩
  · constructor
    · intro h
      by_cases h1 : args.oidcToken = ""
      · simp [VerifyEnv, h1] at h
      by_cases h2 : args.tenantID = ""
      · simp [VerifyEnv, h1, h2] at h
      by_cases h3 : args.clientID = ""
      · simp [VerifyEnv, h1, h2, h3] at h
      by_cases h4 : isGuidShape args.tenantID = true
      · by_cases h5 : isGuidShape args.clientID = true
        · exact ⟨h1, h2, h3, h4, h5⟩
        · simp [VerifyEnv, h1, h2, h3, pluginValidateGUID, h4, h5] at h
      · simp [VerifyEnv, h1, h2, h3, pluginValidateGUID, h4] at h
    · rintro ⟨h1, h2, h3, h4, h5⟩
      simp [VerifyEnv, h1, h2, h3, pluginValidateGUID, h4, h5]
  · intro h
    have hv : ∃ m, VerifyEnv args = .error m ∧
        (m = "oidc-token is not provided" ∨ m = "tenant-id is not provided" ∨
          m = "client-id is not provided") := by
      by_cases h1 : args.oidcToken = ""
      · exact ⟨_, by simp [VerifyEnv, h1], Or.inl rfl⟩
      · by_cases h2 : args.tenantID = ""
        · exact ⟨_, by simp [VerifyEnv, h1, h2], Or.inr (Or.inl rfl)⟩
        · have h3 : args.clientID = "" := by tauto
          exact ⟨_, by simp [VerifyEnv, h1, h2, h3], Or.inr (Or.inr rfl)⟩
    refine ⟨hv, ?_⟩
    obtain ⟨m, hm, _⟩ := hv
    intro send send' fe fe'
    simp [Exec, hm]
  · rintro ⟨h1, h2, h3, h45⟩
    by_cases h4 : isGuidShape args.tenantID = true
    · have h5 : isGuidShape args.clientID = false := by
        rcases h45 with hc | hc
        · rw [h4] at hc; simp at hc
        · exact hc
      exact ⟨"client-id", by simp [VerifyEnv, h1, h2, h3, pluginValidateGUID, h4, h5]⟩
    · exact ⟨"tenant-id", by simp [VerifyEnv, h1, h2, h3, pluginValidateGUID, h4]⟩

/-- C4 witness: a run with an empty oidc_token fails with the
missing-field message whatever the oracles do; an all-hyphen-shaped pair
of identifiers (not hexadecimal) passes the shape-only check. -/
theorem verifyEnv_gate_witness :
    (∃ m, VerifyEnv ⟨"", "12345678-1234-1234-1234-1234567890ab",
        "12345678-1234-1234-1234-1234567890ab", "", ""⟩ = .error m ∧
      (m = "oidc-token is not provided" ∨ m = "tenant-id is not provided" ∨
        m = "client-id is not provided")) ∧
    VerifyEnv ⟨"tok", "zzzzzzzz-zzzz-zzzz-zzzz-zzzzzzzzzzzz",
      "zzzzzzzz-zzzz-zzzz-zzzz-zzzzzzzzzzzz", "", ""⟩ = .ok () := by
  constructor
  · exact ((verifyEnv_gate _).2.1 (Or.inl rfl)).1
  · exact (verifyEnv_gate _).1.mpr ⟨by decide, by decide, by decide, by decide, by decide⟩

/-- C7: on any failing invocation nothing is appended to the result sink,
and the sink receives a line at all only when the exchange succeeded and
the output file opened, in which case it is exactly the single
`AZURE_ACCESS_TOKEN=<token>\n` line. -/
theorem token_written_only_after_successful_exchange
    (send : TokenRequest → HTTPOutcome) (fe : Option String) (args : Args) :
    (∀ e, (Exec send fe args).1 = .error e → (Exec send fe args).2 = []) ∧
    ((Exec send fe args).2 ≠ [] →
      (∃ t, exchangeOIDCForAzureToken send args.oidcToken args.tenantID
          args.clientID args.scope = .ok t ∧
        (Exec send fe args).2 = ["AZURE_ACCESS_TOKEN=" ++ t.access_token ++ "\n"]) ∧
      fe = none ∧ (Exec send fe args).1 = .ok ()) := by
  unfold Exec
  cases hv : VerifyEnv args with
  | error e => simp
  | ok u =>
    cases hx : exchangeOIDCForAzureToken send args.oidcToken args.tenantID
        args.clientID args.scope with
    | error e => simp
    | ok t =>
      cases fe with
      | some cause => simp
      | none => simp [writeEnvLine]

/-- C7 witness: a run whose provider rejects the exchange reports the
failure and appends nothing to the sink. -/
theorem token_written_only_after_successful_exchange_witness :
    (Exec (fun _ => .response 400 "400 Bad Request" "") none
        ⟨"tok", "12345678-1234-1234-1234-1234567890ab",
          "12345678-1234-1234-1234-1234567890ab", "", ""⟩).2 = [] :=
  (token_written_only_after_successful_exchange _ _ _).1
    "failed to exchange OIDC token: token exchange failed: 400 Bad Request" rfl

/-- C10: `ExchangeOIDCForAzureToken` re-validates tenant_id and client_id
itself: its acceptance coincides with the 36-character hyphen-position
shape check (the empty string is also rejected), and when either
identifier fails the check the exchanger returns an error without
consulting the network at all (its result is the same for every `send`
oracle), so no request can be sent with an empty, malformed, or alias
(`common`) identifier even by a caller that skipped `VerifyEnv`. -/
theorem exchanger_revalidates_identifiers (oidcToken tenantID clientID scope : String) :
    (∀ v f, utilValidateGUID v f = .ok () ↔ isGuidShape v = true) ∧
    ((isGuidShape tenantID = false ∨ isGuidShape clientID = false) →
      ∀ send send' : TokenRequest → HTTPOutcome,
        exchangeOIDCForAzureToken send oidcToken tenantID clientID scope =
          exchangeOIDCForAzureToken send' oidcToken tenantID clientID scope ∧
        ∃ e, exchangeOIDCForAzureToken send oidcToken tenantID clientID scope =
          .error e) := by
  refine ⟨utilValidateGUID_ok_iff, ?_⟩
  intro hbad send send'
  unfold exchangeOIDCForAzureToken
  cases ht : utilValidateGUID tenantID "tenant_id" with
  | error e => exact ⟨rfl, e, rfl⟩
  | ok u =>
    have hts : isGuidShape tenantID = true := by
      have := (utilValidateGUID_ok_iff tenantID "tenant_id").mp (by rw [ht])
      exact this
    cases hc : utilValidateGUID clientID "client_id" with
    | error e => exact ⟨rfl, e, rfl⟩
    | ok u' =>
      have hcs : isGuidShape clientID = true := by
        have := (utilValidateGUID_ok_iff clientID "client_id").mp (by rw [hc])
        exact this
      rcases hbad with hb | hb
      · rw [hts] at hb; simp at hb
      · rw [hcs] at hb; simp at hb

/-- C10 witness: the multi-tenant alias `common` is rejected inside the
exchanger regardless of what the network would answer — even a provider
that would return HTTP 200 is never contacted. -/
theorem exchanger_revalidates_identifiers_witness :
    exchangeOIDCForAzureToken (fun _ => .response 200 "200 OK"
        "\x7b\"token_type\":\"Bearer\",\"expires_in\":3600,\"access_token\":\"abc\"\x7d")
      "tok" "common" "12345678-1234-1234-1234-1234567890ab" "" =
    exchangeOIDCForAzureToken (fun _ => .response 500 "500 Internal Server Error" "")
      "tok" "common" "12345678-1234-1234-1234-1234567890ab" "" ∧
    ∃ e, exchangeOIDCForAzureToken (fun _ => .response 200 "200 OK"
        "\x7b\"token_type\":\"Bearer\",\"expires_in\":3600,\"access_token\":\"abc\"\x7d")
      "tok" "common" "12345678-1234-1234-1234-1234567890ab" "" = .error e :=
  (exchanger_revalidates_identifiers "tok" "common"
      "12345678-1234-1234-1234-1234567890ab" "").2 (Or.inl (by decide)) _ _

/-- C1: when both identifiers pass validation and the provider answers the
built request with HTTP 200 and the body
`{"token_type":"Bearer","expires_in":3600,"access_token":"abc"}`, the
exchanger returns that token response — access_token `abc`,
expires_in 3600 — and no error. -/
theorem exchange_success_on_200 (send : TokenRequest → HTTPOutcome)
    (oidcToken tenantID clientID scope status : String)
    (ht : isGuidShape tenantID = true) (hc : isGuidShape clientID = true)
    (hr : send { url := tokenEndpoint tenantID,
                 form := buildForm oidcToken clientID scope } =
      .response 200 status
        "\x7b\"token_type\":\"Bearer\",\"expires_in\":3600,\"access_token\":\"abc\"\x7d") :
    exchangeOIDCForAzureToken send oidcToken tenantID clientID scope =
      .ok { token_type := "Bearer", expires_in := 3600,
            access_token := "abc", refresh_token := "" } ∧
    ∃ t, exchangeOIDCForAzureToken send oidcToken tenantID clientID scope = .ok t ∧
      t.access_token = "abc" ∧ t.expires_in = 3600 := by
  have h1 : utilValidateGUID tenantID "tenant_id" = .ok () :=
    (utilValidateGUID_ok_iff tenantID "tenant_id").mpr ht
  have h2 : utilValidateGUID clientID "client_id" = .ok () :=
    (utilValidateGUID_ok_iff clientID "client_id").mpr hc
  have hmain : exchangeOIDCForAzureToken send oidcToken tenantID clientID scope =
      .ok { token_type := "Bearer", expires_in := 3600,
            access_token := "abc", refresh_token := "" } := by
    unfold exchangeOIDCForAzureToken
    rw [h1, h2, hr]
    rfl
  exact ⟨hmain, _, hmain, rfl, rfl⟩

/-- C1 witness: the concrete successful run. -/
theorem exchange_success_on_200_witness :
    exchangeOIDCForAzureToken
        (fun _ => .response 200 "200 OK"
          "\x7b\"token_type\":\"Bearer\",\"expires_in\":3600,\"access_token\":\"abc\"\x7d")
        "tok" "12345678-1234-1234-1234-1234567890ab"
        "12345678-1234-1234-1234-1234567890ab" "" =
      .ok { token_type := "Bearer", expires_in := 3600,
            access_token := "abc", refresh_token := "" } :=
  (exchange_success_on_200 _ "tok" _ _ "" "200 OK"
    (by decide) (by decide) rfl).1

/-- C6: a 200 response whose body does not unmarshal into the token-response
shape makes the exchanger fail with the decode error carrying the parse
detail, and no token (partial or otherwise) is returned. -/
theorem decode_error_on_malformed_200 (send : TokenRequest → HTTPOutcome)
    (oidcToken tenantID clientID scope status body d : String)
    (ht : isGuidShape tenantID = true) (hc : isGuidShape clientID = true)
    (hr : send { url := tokenEndpoint tenantID,
                 form := buildForm oidcToken clientID scope } = .response 200 status body)
    (hd : unmarshalAzureToken body = .error d) :
    exchangeOIDCForAzureToken send oidcToken tenantID clientID scope =
      .error ("failed to decode response: " ++ d) ∧
    ∀ t, exchangeOIDCForAzureToken send oidcToken tenantID clientID scope ≠ .ok t := by
  have h1 : utilValidateGUID tenantID "tenant_id" = .ok () :=
    (utilValidateGUID_ok_iff tenantID "tenant_id").mpr ht
  have h2 : utilValidateGUID clientID "client_id" = .ok () :=
    (utilValidateGUID_ok_iff clientID "client_id").mpr hc
  have hmain : exchangeOIDCForAzureToken send oidcToken tenantID clientID scope =
      .error ("failed to decode response: " ++ d) := by
    unfold exchangeOIDCForAzureToken
    rw [h1, h2, hr]
    simp [handleResponse, hd]
  exact ⟨hmain, fun t h => by rw [hmain] at h; cases h⟩

/-- C6 witness: the truncated body from the spec example,
`{"access_token":`, yields the decode error. -/
theorem decode_error_on_malformed_200_witness :
    exchangeOIDCForAzureToken (fun _ => .response 200 "200 OK" "\x7b\"access_token\":")
        "tok" "12345678-1234-1234-1234-1234567890ab"
        "12345678-1234-1234-1234-1234567890ab" "" =
      .error ("failed to decode response: " ++ "invalid JSON input") :=
  (decode_error_on_malformed_200 _ "tok" _ _ "" "200 OK" "\x7b\"access_token\":"
    "invalid JSON input" (by decide) (by decide) rfl rfl).1

/-- C5 counterexample: for the HTTP 400 response with the structured body
from the spec's own example, the produced error message carries the error
code, the (truncated) description and the trace id, but not the HTTP
status: the digits `400` appear nowhere in it.  The claim that the error
carries the status is therefore false for this input. -/
theorem provider_error_message_omits_status :
    exchangeOIDCForAzureToken
        (fun _ => .response 400 "400 Bad Request"
          "\x7b\"error\":\"invalid_client\",\"error_description\":\"some long description\",\"error_codes\":[700016]\x7d")
        "tok" "12345678-1234-1234-1234-1234567890ab"
        "12345678-1234-1234-1234-1234567890ab" "scope" =
      .error "token exchange failed: invalid_client - some long description (trace_id: )" ∧
    containsSub "400"
      "token exchange failed: invalid_client - some long description (trace_id: )" = false :=
  ⟨rfl, by decide⟩

/-- C5 (amended): on a non-200 response whose body unmarshals to a
provider error with a non-empty code, the exchanger fails with the message
carrying the code, the trace id and the sanitized description — sanitizing
truncates to at most 200 bytes plus a trailing `...` marker, so the
description part never exceeds 203 bytes; when the body does not unmarshal
or the code is empty, the failure carries just the HTTP status line. -/
theorem provider_rejected_code_and_truncated_description
    (send : TokenRequest → HTTPOutcome)
    (oidcToken tenantID clientID scope status body : String) (statusCode : Nat)
    (ht : isGuidShape tenantID = true) (hc : isGuidShape clientID = true)
    (hr : send { url := tokenEndpoint tenantID,
                 form := buildForm oidcToken clientID scope } =
      .response statusCode status body)
    (hs : statusCode ≠ 200) :
    (∀ e, unmarshalAzureError body = .ok e → e.error ≠ "" →
      exchangeOIDCForAzureToken send oidcToken tenantID clientID scope =
        .error ("token exchange failed: " ++ e.error ++ " - "
          ++ sanitizeErrorDescription e.error_description
          ++ " (trace_id: " ++ e.trace_id ++ ")")) ∧
    (∀ d, unmarshalAzureError body = .error d →
      exchangeOIDCForAzureToken send oidcToken tenantID clientID scope =
        .error ("token exchange failed: " ++ status)) ∧
    (∀ e, unmarshalAzureError body = .ok e → e.error = "" →
      exchangeOIDCForAzureToken send oidcToken tenantID clientID scope =
        .error ("token exchange failed: " ++ status)) ∧
    (∀ desc : String, (sanitizeErrorDescription desc).data.length ≤ 203 ∧
      (200 < desc.data.length → ∃ t : String, t.data.length = 200 ∧
        sanitizeErrorDescription desc = t ++ "...")) := by
  have h1 : utilValidateGUID tenantID "tenant_id" = .ok () :=
    (utilValidateGUID_ok_iff tenantID "tenant_id").mpr ht
  have h2 : utilValidateGUID clientID "client_id" = .ok () :=
    (utilValidateGUID_ok_iff clientID "client_id").mpr hc
  have hx : exchangeOIDCForAzureToken send oidcToken tenantID clientID scope =
      handleResponse statusCode status body := by
    unfold exchangeOIDCForAzureToken
    rw [h1, h2, hr]
  refine ⟨?_, ?_, ?_, ?_⟩
  · intro e he hne
    rw [hx]
    simp [handleResponse, hs, he, hne]
  · intro d hd
    rw [hx]
    simp [handleResponse, hs, hd]
  · intro e he hne
    rw [hx]
    simp [handleResponse, hs, he, hne]
  · intro desc
    unfold sanitizeErrorDescription
    by_cases hlen : desc.data.length > 200
    · rw [if_pos hlen]
      constructor
      · show (String.mk (desc.data.take 200) ++ "...").data.length ≤ 203
        rw [string_data_append]
        show (desc.data.take 200 ++ ['.', '.', '.']).length ≤ 203
        rw [List.length_append, List.length_take,
          show (['.', '.', '.'] : List Char).length = 3 from rfl]
        omega
      · intro _
        refine ⟨String.mk (desc.data.take 200), ?_, rfl⟩
        show (desc.data.take 200).length = 200
        rw [List.length_take]
        omega
    · rw [if_neg hlen]
      exact ⟨by omega, fun hlt => absurd hlt hlen⟩

/-- C5 witness: the concrete 400 run produces exactly the structured
message, and an over-long description is truncated with the ellipsis
marker to 203 bytes. -/
theorem provider_rejected_code_and_truncated_description_witness :
    exchangeOIDCForAzureToken
        (fun _ => .response 400 "400 Bad Request"
          "\x7b\"error\":\"invalid_server_error\",\"error_description\":\"desc\",\"trace_id\":\"tid\"\x7d")
        "tok" "12345678-1234-1234-1234-1234567890ab"
        "12345678-1234-1234-1234-1234567890ab" "" =
      .error "token exchange failed: invalid_server_error - desc (trace_id: tid)" ∧
    (sanitizeErrorDescription (String.mk (List.replicate 250 'a'))).data.length ≤ 203 := by
  have h := provider_rejected_code_and_truncated_description
    (fun _ => .response 400 "400 Bad Request"
      "\x7b\"error\":\"invalid_server_error\",\"error_description\":\"desc\",\"trace_id\":\"tid\"\x7d")
    "tok" "12345678-1234-1234-1234-1234567890ab"
    "12345678-1234-1234-1234-1234567890ab" ""
    "400 Bad Request"
    "\x7b\"error\":\"invalid_server_error\",\"error_description\":\"desc\",\"trace_id\":\"tid\"\x7d"
    400 (by decide) (by decide) rfl (by decide)
  exact ⟨h.1 _ rfl (by decide), (h.2.2.2 _).1⟩

theorem skipWs_nil : skipWs [] = [] := rfl

theorem skipWs_nows (c : Char) (h : isWsChar c = false) (rest : List Char) :
    skipWs (c :: rest) = c :: rest := by
  rw [skipWs.eq_def]
  simp [h]

theorem psb_quote (rest : List Char) :
    parseStringBody ('"' :: rest) = some ([], rest) := by
  rw [parseStringBody.eq_def]
  rfl

theorem psb_step (c : Char) (h1 : ¬c = '"') (h2 : ¬c = '\\') (rest : List Char) :
    parseStringBody (c :: rest) =
      (parseStringBody rest).map (fun sr => (c :: sr.1, sr.2)) := by
  rw [parseStringBody.eq_def]
  simp [h1, h2]
  cases parseStringBody rest with
  | none => rfl
  | some sr => rfl

theorem psb_rep_closed (n : Nat) (rest : List Char) :
    parseStringBody (List.replicate n 'a' ++ '"' :: rest) =
      some (List.replicate n 'a', rest) := by
  induction n with
  | zero => simp [psb_quote]
  | succ k ih => simp [List.replicate_succ, psb_step, ih]

theorem psb_rep_open (n : Nat) :
    parseStringBody (List.replicate n 'a') = none := by
  induction n with
  | zero => rfl
  | succ k ih => simp [List.replicate_succ, psb_step, ih]

theorem pv_string (fuel : Nat) (rest : List Char) :
    parseValue (fuel + 1) ('"' :: rest) =
      (parseStringBody rest).map (fun sr => (Json.str (String.mk sr.1), sr.2)) := by
  rw [parseValue.eq_def]
  simp [skipWs_nows, isWsChar]
  cases parseStringBody rest with
  | none => rfl
  | some sr => rfl

theorem pv_obj_quote (fuel : Nat) (rest : List Char) :
    parseValue (fuel + 1) ('\x7b' :: '"' :: rest) =
      (parseMembers fuel ('"' :: rest)).map (fun mr => (Json.obj mr.1, mr.2)) := by
  rw [parseValue.eq_def]
  simp [skipWs_nows, isWsChar]
  cases parseMembers fuel ('"' :: rest) with
  | none => rfl
  | some mr => rfl

theorem pm_quote (fuel : Nat) (rest : List Char) :
    parseMembers (fuel + 1) ('"' :: rest) =
      match parseStringBody rest with
      | none => none
      | some (k, r1) =>
        match skipWs r1 with
        | [] => none
        | c2 :: r2 =>
          if c2 = ':' then
            match parseValue fuel r2 with
            | none => none
            | some (v, r3) =>
              match skipWs r3 with
              | [] => none
              | c3 :: r4 =>
                if c3 = ',' then
                  match parseMembers fuel r4 with
                  | none => none
                  | some (ms, r5) => some ((String.mk k, v) :: ms, r5)
                else if c3 = '\x7d' then some ([(String.mk k, v)], r4)
                else none
          else none := by
  rw [parseMembers.eq_def]
  simp [skipWs_nows, isWsChar]

set_option maxHeartbeats 2000000 in
theorem parse_err_obj (f n : Nat) :
    parseValue (f + 1 + 1 + 1 + 1) (errHeadChars ++ (List.replicate n 'a' ++ ['"', '\x7d'])) =
      some (.obj [("error", .str "invalid_client"),
                  ("error_description", .str (String.mk (List.replicate n 'a')))], []) := by
  simp only [errHeadChars, List.cons_append, List.nil_append]
  rw [pv_obj_quote, pm_quote]
  simp [psb_step, psb_quote, psb_rep_closed, pv_string, pm_quote,
    skipWs_nows, isWsChar]

set_option maxHeartbeats 2000000 in
theorem parse_err_cut (f n : Nat) :
    parseValue (f + 1 + 1 + 1 + 1) (errHeadChars ++ List.replicate n 'a') = none := by
  simp only [errHeadChars, List.cons_append, List.nil_append]
  rw [pv_obj_quote, pm_quote]
  simp [psb_step, psb_quote, psb_rep_open, pv_string, pm_quote,
    skipWs_nows, isWsChar]

theorem unmarshal_errBodyFull (n : Nat) :
    unmarshalAzureError (errBodyFull n) =
      .ok { error := "invalid_client",
            error_description := String.mk (List.replicate n 'a'),
            error_codes := [], timestamp := "", trace_id := "", correlation_id := "" } := by
  unfold unmarshalAzureError parseJsonDoc errBodyFull
  have hlen : (String.mk (errHeadChars ++ (List.replicate n 'a' ++ ['"', '\x7d']))).data.length + 1 =
      n + 46 + 1 + 1 + 1 + 1 := by
    show (errHeadChars ++ (List.replicate n 'a' ++ ['"', '\x7d'])).length + 1 = n + 50
    rw [List.length_append, List.length_append, List.length_replicate, errHeadChars_length,
      show (['"', '\x7d'] : List Char).length = 2 from rfl]
    omega
  rw [hlen]
  rw [show (String.mk (errHeadChars ++ (List.replicate n 'a' ++ ['"', '\x7d']))).data =
    errHeadChars ++ (List.replicate n 'a' ++ ['"', '\x7d']) from rfl]
  rw [parse_err_obj]
  rfl

theorem unmarshal_errBodyCut (n : Nat) :
    unmarshalAzureError (errBodyCut n) = .error "invalid JSON input" := by
  unfold unmarshalAzureError parseJsonDoc errBodyCut
  have hlen : (String.mk (errHeadChars ++ List.replicate n 'a')).data.length + 1 =
      n + 44 + 1 + 1 + 1 + 1 := by
    show (errHeadChars ++ List.replicate n 'a').length + 1 = n + 48
    rw [List.length_append, List.length_replicate, errHeadChars_length]
    omega
  rw [hlen]
  rw [show (String.mk (errHeadChars ++ List.replicate n 'a')).data =
    errHeadChars ++ List.replicate n 'a' from rfl]
  rw [parse_err_cut]

theorem handle_errBodyFull (n : Nat) :
    handleResponse 400 "400 Bad Request" (errBodyFull n) =
      .error ("token exchange failed: " ++ "invalid_client" ++ " - "
        ++ sanitizeErrorDescription (String.mk (List.replicate n 'a'))
        ++ " (trace_id: " ++ "" ++ ")") := by
  unfold handleResponse
  rw [if_pos (by omega : (400:Nat) ≠ 200), unmarshal_errBodyFull]
  simp

theorem handle_errBodyCut (n : Nat) :
    handleResponse 400 "400 Bad Request" (errBodyCut n) =
      .error ("token exchange failed: " ++ "400 Bad Request") := by
  unfold handleResponse
  rw [if_pos (by omega : (400:Nat) ≠ 200), unmarshal_errBodyCut]

theorem errMsgs_distinct (n : Nat) :
    ("token exchange failed: " ++ "invalid_client" ++ " - "
        ++ sanitizeErrorDescription (String.mk (List.replicate n 'a'))
        ++ " (trace_id: " ++ "" ++ ")") ≠
      ("token exchange failed: " ++ "400 Bad Request") := by
  intro h
  have hl := congrArg (fun s : String => s.data.length) h
  simp only [string_data_append, List.length_append] at hl
  rw [show ("token exchange failed: " : String).data.length = 23 from rfl,
    show ("invalid_client" : String).data.length = 14 from rfl,
    show (" - " : String).data.length = 3 from rfl,
    show (" (trace_id: " : String).data.length = 12 from rfl,
    show ("" : String).data.length = 0 from rfl,
    show (")" : String).data.length = 1 from rfl,
    show ("400 Bad Request" : String).data.length = 15 from rfl] at hl
  omega

/-- C9 counterexample: two non-200 response bodies that agree on their
first 4096 bytes produce different exchange errors, so the error-body
handling reads and parses beyond any 4096-byte cap: the body is read in
full by `io.ReadAll` and parsed whole. -/
theorem error_body_read_unbounded_at_4096 :
    (errBodyFull 4049).data.take 4096 = (errBodyCut 4049).data.take 4096 ∧
    handleResponse 400 "400 Bad Request" (errBodyFull 4049) ≠
      handleResponse 400 "400 Bad Request" (errBodyCut 4049) := by
  constructor
  · show (errHeadChars ++ (List.replicate 4049 'a' ++ ['"', '\x7d'])).take 4096 =
      (errHeadChars ++ List.replicate 4049 'a').take 4096
    rw [← List.append_assoc]
    have hlen : (4096:Nat) ≤ (errHeadChars ++ List.replicate 4049 'a').length := by
      rw [List.length_append, List.length_replicate, errHeadChars_length]
    rw [List.take_append_of_le_length hlen]
  · rw [handle_errBodyFull, handle_errBodyCut]
    intro h
    exact errMsgs_distinct 4049 (by injection h)

/-- C9 (amended): the non-200 response body is read and parsed in full,
with no fixed byte cap at all — for every bound `N` there are bodies
agreeing on their first `N` bytes whose exchange outcomes differ. -/
theorem error_body_read_is_unbounded (N : Nat) :
    ∃ b1 b2 : String, b1.data.take N = b2.data.take N ∧
      handleResponse 400 "400 Bad Request" b1 ≠ handleResponse 400 "400 Bad Request" b2 := by
  refine ⟨errBodyFull N, errBodyCut N, ?_, ?_⟩
  · show (errHeadChars ++ (List.replicate N 'a' ++ ['"', '\x7d'])).take N =
      (errHeadChars ++ List.replicate N 'a').take N
    rw [← List.append_assoc]
    have hlen : N ≤ (errHeadChars ++ List.replicate N 'a').length := by
      rw [List.length_append, List.length_replicate, errHeadChars_length]
      omega
    rw [List.take_append_of_le_length hlen]
  · rw [handle_errBodyFull, handle_errBodyCut]
    intro h
    exact errMsgs_distinct N (by injection h)

/-- C9 amended-claim witness: the unbounded-read statement instantiated at
the bound 0. -/
theorem error_body_read_is_unbounded_witness :
    ∃ b1 b2 : String, b1.data.take 0 = b2.data.take 0 ∧
      handleResponse 400 "400 Bad Request" b1 ≠ handleResponse 400 "400 Bad Request" b2 :=
  error_body_read_is_unbounded 0
